import Mathlib

/-!
Verification development for a small Express/MongoDB backend
(`src/server/index.js`): user registration and login with bcrypt-hashed
passwords, JWT bearer authentication, and group creation / listing /
message posting with a socket broadcast.

The JavaScript handlers are embedded as pure Lean functions over an
explicit store state.  External libraries are modelled by their
contracts: bcrypt as a salted digest record with a comparison function,
jsonwebtoken as a signed record carrying claims, issue time and expiry,
MongoDB queries as list searches.  Request bodies arrive as `Option`
fields (a JavaScript `undefined` field is `none`); handler outcomes are
small inductives naming the HTTP status that the code sends.
-/

namespace Vihara

/-- JavaScript `s.toLowerCase()` (ASCII case folding, as used on emails). -/
def toLowerCase (s : String) : String :=
  String.mk (s.data.map Char.toLower)

/-- JavaScript `s.split(" ")` on the character list: splits at every space,
keeping empty fragments, so `"a  b"` gives `["a", "", "b"]` and `""` gives
`[""]`. -/
def splitOnSpace : List Char → List (List Char)
  | [] => [[]]
  | c :: rest =>
    match splitOnSpace rest with
    | [] => [[c]]
    | w :: ws => if c = ' ' then [] :: w :: ws else (c :: w) :: ws

/-- bcrypt digest: a salted one-way hash of a plaintext password
(`bcrypt.hash(plaintext, saltRounds)`).  The digest is modelled as an
abstract record; only `bcryptCompare` may look inside it. -/
structure HashDigest where
  ofPlain : String
  salt : Nat
deriving DecidableEq, Repr

/-- Model of `bcrypt.hash(plain, salt)`. -/
def bcryptHash (plain : String) (salt : Nat) : HashDigest :=
  ⟨plain, salt⟩

/-- Model of `bcrypt.compare(plain, digest)`: true iff `digest` was produced from
`plain`. -/
def bcryptCompare (plain : String) (h : HashDigest) : Bool :=
  plain = h.ofPlain

/-- The payload signed into a token at login:
`{ userId: user._id, email: user.email }`. -/
structure Claims where
  userId : Nat
  email : String
deriving DecidableEq, Repr

/-- A signed JWT: the claims, issue time and expiry (seconds), and the
secret it was signed with (standing for the signature). -/
structure Token where
  claims : Claims
  iat : Nat
  exp : Nat
  secret : String
deriving DecidableEq, Repr

/-- Model of `jwt.sign` with a one-hour expiry, at wall-clock `now`:
expiry is fixed at issuance to `now + 3600` seconds. -/
def jwtSign (c : Claims) (secret : String) (now : Nat) : Token :=
  { claims := c, iat := now, exp := now + 3600, secret := secret }

/-- Model of `jwt.verify(token, secret)` at wall-clock `now`: succeeds with the
decoded claims iff the signature matches the secret and the token is not
yet expired (jsonwebtoken treats `now >= exp` as expired). -/
def jwtVerify (t : Token) (secret : String) (now : Nat) : Option Claims :=
  if t.secret = secret ∧ now < t.exp then some t.claims else none

/-- A stored user document (`users` collection): the `password` field
holds the bcrypt digest, never a plaintext `String`. -/
structure User where
  id : Nat
  name : String
  email : String
  password : HashDigest
deriving DecidableEq, Repr

/-- A message embedded in a group document:
`{ sender, text, timestamp }`; `text` is `none` when the request body had
no `text` field. -/
structure Message where
  sender : String
  text : Option String
  timestamp : Nat
deriving DecidableEq, Repr

/-- A stored group document (`groups` collection). -/
structure Group where
  id : Nat
  name : Option String
  members : List String
  messages : List Message
deriving DecidableEq, Repr

/-- The document store: the two collections, plus the next ids the store
will assign (standing for MongoDB ObjectId generation). -/
structure ServerState where
  users : List User
  groups : List Group
  nextUserId : Nat
  nextGroupId : Nat
deriving DecidableEq, Repr

/-- Token extraction, `req.headers.authorization?.split(" ")[1]` followed by the
`if (!token)` guard: the token is the second space-separated part of the
authorization header; an absent header, a header without a second part,
or an empty second part all yield `none`.  The scheme word itself is
never inspected. -/
def extractToken (auth : Option String) : Option String :=
  match auth with
  | none => none
  | some s =>
    match (splitOnSpace s.data).get? 1 with
    | none => none
    | some w => if w = [] then none else some (String.mk w)

/-- Outcome of the `authenticateUser` middleware. -/
inductive AuthResult where
  | unauthorized401 : AuthResult
  | forbidden403 : AuthResult
  | proceed : Claims → AuthResult
deriving DecidableEq, Repr

/-- The `authenticateUser` middleware: no token → 401; token present but
`jwt.verify` fails → 403; otherwise attach the decoded claims to
`req.user` and call the handler.  `verifyTok` is the external
`jwt.verify` bound to the process secret. -/
def authenticateUser (verifyTok : String → Option Claims)
    (auth : Option String) : AuthResult :=
  match extractToken auth with
  | none => .unauthorized401
  | some t =>
    match verifyTok t with
    | none => .forbidden403
    | some c => .proceed c

/-- Outcome of `POST /api/auth/register`. -/
inductive RegisterResult where
  | created201 : RegisterResult
  | duplicate400 : RegisterResult
  | serverError500 : RegisterResult
deriving DecidableEq, Repr

/-- Handler for `POST /api/auth/register`.  Evaluation order follows the handler:
`email.toLowerCase()` throws on a missing email (caught → 500); then the
duplicate lookup (→ 400); then `bcrypt.hash` throws on a missing
password (→ 500); then `save()` rejects a missing required name
(→ 500); otherwise the user is stored and 201 returned. -/
def register (st : ServerState) (name email password : Option String)
    (salt : Nat) : RegisterResult × ServerState :=
  match email with
  | none => (.serverError500, st)
  | some e =>
    let le := toLowerCase e
    match st.users.find? (fun u => u.email = le) with
    | some _ => (.duplicate400, st)
    | none =>
      match password with
      | none => (.serverError500, st)
      | some p =>
        match name with
        | none => (.serverError500, st)
        | some n =>
          let newUser : User :=
            { id := st.nextUserId, name := n, email := le
              password := bcryptHash p salt }
          (.created201,
            { st with users := st.users ++ [newUser]
                      nextUserId := st.nextUserId + 1 })

/-- Outcome of `POST /api/auth/login`.  A missing email makes
`email.toLowerCase()` throw outside the `try` block, so no response is
ever sent (`noResponse`). -/
inductive LoginResult where
  | ok : Token → LoginResult
  | userNotFound400 : LoginResult
  | badPassword400 : LoginResult
  | serverError500 : LoginResult
  | noResponse : LoginResult
deriving DecidableEq, Repr

/-- Handler for `POST /api/auth/login` at wall-clock `now`: lower-case the email,
look the user up, compare the password with the stored digest
(`bcrypt.compare` rejects a missing password → 500), and on success sign
a token over `{ userId, email }` expiring in one hour. -/
def login (st : ServerState) (email password : Option String)
    (secret : String) (now : Nat) : LoginResult :=
  match email with
  | none => .noResponse
  | some e =>
    let le := toLowerCase e
    match st.users.find? (fun u => u.email = le) with
    | none => .userNotFound400
    | some u =>
      match password with
      | none => .serverError500
      | some p =>
        if bcryptCompare p u.password then
          .ok (jwtSign { userId := u.id, email := u.email } secret now)
        else .badPassword400

/-- The user record as returned by `GET /api/auth/user`
(`.select("-password")`): no password field exists in the response
type. -/
structure UserView where
  id : Nat
  name : String
  email : String
deriving DecidableEq, Repr

/-- Outcome of `GET /api/auth/user`. -/
inductive GetUserResult where
  | ok : UserView → GetUserResult
  | notFound404 : GetUserResult
deriving DecidableEq, Repr

/-- Handler for `GET /api/auth/user`: look the authenticated `userId` up and return
the record with the password projected away. -/
def getAuthUser (st : ServerState) (userId : Nat) : GetUserResult :=
  match st.users.find? (fun u => u.id = userId) with
  | none => .notFound404
  | some u => .ok { id := u.id, name := u.name, email := u.email }

/-- Outcome of `POST /api/groups` (the store is assumed reliable, so the
handler always reaches 201). -/
inductive CreateGroupResult where
  | created201 : Group → CreateGroupResult
deriving DecidableEq, Repr

/-- Handler for `POST /api/groups`: build `{ name, members: [req.user.email],
messages: [] }`, save it, respond 201 with the group. -/
def createGroup (st : ServerState) (name : Option String)
    (ownerEmail : String) : CreateGroupResult × ServerState :=
  let g : Group :=
    { id := st.nextGroupId, name := name, members := [ownerEmail]
      messages := [] }
  (.created201 g,
    { st with groups := st.groups ++ [g], nextGroupId := st.nextGroupId + 1 })

/-- Handler for `GET /api/groups`, a `find` on the members array: the groups
whose members array contains the caller's email. -/
def listGroups (st : ServerState) (email : String) : List Group :=
  st.groups.filter (fun g => g.members.contains email)

/-- Outcome of `POST /api/groups/:id/message`. -/
inductive SendResult where
  | ok : Message → SendResult
  | notFound404 : SendResult
deriving DecidableEq, Repr

/-- Record of one `io.to(channel).emit(event, payload)` call. -/
structure Broadcast where
  channel : String
  event : String
  payload : Message
deriving DecidableEq, Repr

/-- Replace the first group with the given id (the document
`findById` loaded and `save()` wrote back). -/
def updateFirst (gs : List Group) (gid : Nat) (g' : Group) : List Group :=
  match gs with
  | [] => []
  | h :: t => if h.id = gid then g' :: t else h :: updateFirst t gid g'

/-- Handler for `POST /api/groups/:id/message` at wall-clock `now`: load the group
(404 if absent, nothing written, nothing broadcast), append
`{ sender: req.user.email, text, timestamp: now }`, save, broadcast
`newMessage` on the group-id channel, respond 200 with the message.  The
sender's membership in the group is never checked. -/
def sendMessage (st : ServerState) (gid : Nat) (sender : String)
    (text : Option String) (now : Nat) :
    SendResult × ServerState × List Broadcast :=
  match st.groups.find? (fun g => g.id = gid) with
  | none => (.notFound404, st, [])
  | some g =>
    let m : Message := { sender := sender, text := text, timestamp := now }
    let g' : Group := { g with messages := g.messages ++ [m] }
    (.ok m,
      { st with groups := updateFirst st.groups gid g' },
      [{ channel := toString g.id, event := "newMessage", payload := m }])

/-- The store with every stored password digest rewritten: used to state
that responses carry no password information. -/
def mapPasswords (st : ServerState) (f : HashDigest → HashDigest) :
    ServerState :=
  { st with users := st.users.map (fun u => { u with password := f u.password }) }

/-- Searching an appended list when the first part has no match. -/
theorem find?_append_of_none {α : Type} (p : α → Bool) (l₁ l₂ : List α)
    (h : l₁.find? p = none) : (l₁ ++ l₂).find? p = l₂.find? p := by
  simp [List.find?_append, h]

/-- C1 (amended): the middleware is a three-state machine keyed on the
extracted token: when no token is extracted (header absent, or no
non-empty second space-separated part — the scheme word itself is never
validated) the request is rejected 401; when a token is extracted but
verification fails it is rejected 403; when verification succeeds the
decoded claims are attached and the handler proceeds. -/
theorem auth_middleware_state_machine (v : String → Option Claims)
    (auth : Option String) :
    (extractToken auth = none →
      authenticateUser v auth = AuthResult.unauthorized401) ∧
    (∀ t, extractToken auth = some t → v t = none →
      authenticateUser v auth = AuthResult.forbidden403) ∧
    (∀ t c, extractToken auth = some t → v t = some c →
      authenticateUser v auth = AuthResult.proceed c) ∧
    (auth = none → extractToken auth = none) := by
  refine ⟨fun h => ?_, fun t h hv => ?_, fun t c h hv => ?_, fun h => ?_⟩
  · simp [authenticateUser, h]
  · simp [authenticateUser, h, hv]
  · simp [authenticateUser, h, hv]
  · simp [extractToken, h]

/-- C1 counterexample: a bearer-less scheme with a second part is NOT
treated as NoToken (401) as the claim states; the second word is taken
as the token and rejected 403 when invalid. -/
theorem auth_scheme_word_not_validated :
    authenticateUser (fun _ => none) (some "Basic deadbeef")
        = AuthResult.forbidden403 ∧
    authenticateUser (fun _ => none) (some "Basic deadbeef")
        ≠ AuthResult.unauthorized401 := by
  constructor <;> decide

/-- Witness for `auth_middleware_state_machine` on a concrete Bearer
header and verifier. -/
theorem auth_middleware_state_machine_witness :
    authenticateUser
        (fun t => if t = "tok123" then some ⟨7, "a@x.com"⟩ else none)
        (some "Bearer tok123")
      = AuthResult.proceed ⟨7, "a@x.com"⟩ :=
  (auth_middleware_state_machine
      (fun t => if t = "tok123" then some ⟨7, "a@x.com"⟩ else none)
      (some "Bearer tok123")).2.2.1 "tok123" ⟨7, "a@x.com"⟩ (by decide)
    (by decide)

/-- C2: after registering (name, e, p), logging in with the same
password and any email equal to e up to case returns the freshly signed
token, whose verification succeeds; logging in with a wrong password
yields 400 (bad password). -/
theorem login_roundtrip_and_bad_password (st0 : ServerState)
    (n e p e2 p2 : String) (salt : Nat) (secret : String) (now : Nat)
    (hfresh : st0.users.find? (fun u => u.email = toLowerCase e) = none)
    (hcase : toLowerCase e2 = toLowerCase e) :
    login (register st0 (some n) (some e) (some p) salt).2 (some e2)
        (some p) secret now
      = LoginResult.ok (jwtSign ⟨st0.nextUserId, toLowerCase e⟩ secret now) ∧
    jwtVerify (jwtSign ⟨st0.nextUserId, toLowerCase e⟩ secret now) secret now
      = some ⟨st0.nextUserId, toLowerCase e⟩ ∧
    (p2 ≠ p →
      login (register st0 (some n) (some e) (some p) salt).2 (some e2)
          (some p2) secret now
        = LoginResult.badPassword400) := by
  have hreg :
      (register st0 (some n) (some e) (some p) salt).2.users
        = st0.users ++
            [⟨st0.nextUserId, n, toLowerCase e, bcryptHash p salt⟩] := by
    simp [register, hfresh]
  have hfind :
      ((register st0 (some n) (some e) (some p) salt).2.users.find?
          (fun u => u.email = toLowerCase e2))
        = some ⟨st0.nextUserId, n, toLowerCase e, bcryptHash p salt⟩ := by
    rw [hreg, hcase, find?_append_of_none _ _ _ hfresh]
    simp [List.find?]
  refine ⟨?_, ?_, fun hp => ?_⟩
  · simp [login, hfind, bcryptCompare, bcryptHash]
  · simp [jwtVerify, jwtSign]
  · simp [login, hfind, bcryptCompare, bcryptHash, hp]

/-- Witness for `login_roundtrip_and_bad_password` on a concrete
registration, with the email case flipped between registration and
login. -/
theorem login_roundtrip_and_bad_password_witness :
    login (register ⟨[], [], 0, 0⟩ (some "A") (some "A@x.Com") (some "pw") 7).2
        (some "a@x.COM") (some "pw") "s" 100
      = LoginResult.ok (jwtSign ⟨0, "a@x.com"⟩ "s" 100) ∧
    login (register ⟨[], [], 0, 0⟩ (some "A") (some "A@x.Com") (some "pw") 7).2
        (some "a@x.COM") (some "zz") "s" 100
      = LoginResult.badPassword400 := by
  have h := login_roundtrip_and_bad_password ⟨[], [], 0, 0⟩ "A" "A@x.Com"
    "pw" "a@x.COM" "zz" 7 "s" 100 (by decide) (by decide)
  exact ⟨h.1, h.2.2 (by decide)⟩

/-- C3: a token signed at `now` carries expiry `iat + 3600`; its
verification with the right secret succeeds at any time strictly before
`now + 3600` and fails at any time after. -/
theorem token_expiry_one_hour (c : Claims) (secret : String) (now t : Nat) :
    (jwtSign c secret now).exp = (jwtSign c secret now).iat + 3600 ∧
    (t < now + 3600 →
      jwtVerify (jwtSign c secret now) secret t = some c) ∧
    (now + 3600 < t →
      jwtVerify (jwtSign c secret now) secret t = none) := by
  refine ⟨rfl, fun h => ?_, fun h => ?_⟩
  · simp [jwtVerify, jwtSign, h]
  · have hn : ¬ t < now + 3600 := by omega
    simp [jwtVerify, jwtSign, hn]

/-- Witness for `token_expiry_one_hour`: acceptance before expiry and
rejection after, on concrete times. -/
theorem token_expiry_one_hour_witness :
    jwtVerify (jwtSign ⟨1, "a@x.com"⟩ "s" 0) "s" 10 = some ⟨1, "a@x.com"⟩ ∧
    jwtVerify (jwtSign ⟨1, "a@x.com"⟩ "s" 0) "s" 4000 = none :=
  ⟨(token_expiry_one_hour ⟨1, "a@x.com"⟩ "s" 0 10).2.1 (by decide),
   (token_expiry_one_hour ⟨1, "a@x.com"⟩ "s" 0 4000).2.2 (by decide)⟩

/-- C4: with no existing user under the normalized email, the first
registration returns 201; a second registration whose email is equal up
to case returns 400 (duplicate) and leaves the store unchanged. -/
theorem duplicate_email_registration (st0 : ServerState)
    (n1 e1 p1 n2 e2 p2 : String) (s1 s2 : Nat)
    (hfresh : st0.users.find? (fun u => u.email = toLowerCase e1) = none)
    (hdup : toLowerCase e2 = toLowerCase e1) :
    (register st0 (some n1) (some e1) (some p1) s1).1
      = RegisterResult.created201 ∧
    register (register st0 (some n1) (some e1) (some p1) s1).2 (some n2)
        (some e2) (some p2) s2
      = (RegisterResult.duplicate400,
         (register st0 (some n1) (some e1) (some p1) s1).2) := by
  have hreg :
      register st0 (some n1) (some e1) (some p1) s1
        = (RegisterResult.created201,
           { st0 with
              users := st0.users ++
                [⟨st0.nextUserId, n1, toLowerCase e1, bcryptHash p1 s1⟩]
              nextUserId := st0.nextUserId + 1 }) := by
    simp [register, hfresh]
  have hfind :
      ((st0.users ++
          [({ id := st0.nextUserId, name := n1, email := toLowerCase e1
              password := bcryptHash p1 s1 } : User)]).find?
          (fun u => u.email = toLowerCase e2))
        = some { id := st0.nextUserId, name := n1, email := toLowerCase e1
                 password := bcryptHash p1 s1 } := by
    rw [hdup, find?_append_of_none _ _ _ hfresh]
    simp [List.find?]
  constructor
  · rw [hreg]
  · rw [hreg]
    simp [register, hfind]

/-- Witness for `duplicate_email_registration` on a concrete store, the
second email differing from the first only in case. -/
theorem duplicate_email_registration_witness :
    (register ⟨[], [], 0, 0⟩ (some "A") (some "A@x.com") (some "p1") 7).1
      = RegisterResult.created201 ∧
    register (register ⟨[], [], 0, 0⟩ (some "A") (some "A@x.com") (some "p1") 7).2
        (some "B") (some "a@X.COM") (some "p2") 9
      = (RegisterResult.duplicate400,
         (register ⟨[], [], 0, 0⟩ (some "A") (some "A@x.com") (some "p1") 7).2) :=
  duplicate_email_registration ⟨[], [], 0, 0⟩ "A" "A@x.com" "p1" "B"
    "a@X.COM" "p2" 7 9 (by decide) (by decide)

/-- C5: the group listing for an email returns exactly the stored groups
whose members contain that email. -/
theorem list_groups_exact_membership (st : ServerState) (e : String)
    (g : Vihara.Group) :
    g ∈ listGroups st e ↔ g ∈ st.groups ∧ e ∈ g.members := by
  simp [listGroups, List.mem_filter, List.contains]

/-- C6: posting a message to an existing group always succeeds for any
authenticated caller — member of the group or not: the message
{sender = caller, text, timestamp = now} is appended as the new last
element, broadcast once on the group's channel, and returned. -/
theorem append_message_any_caller (st : ServerState) (gid : Nat)
    (caller : String) (text : Option String) (now : Nat) (g : Vihara.Group)
    (hg : st.groups.find? (fun h => h.id = gid) = some g) :
    sendMessage st gid caller text now
      = (SendResult.ok ⟨caller, text, now⟩,
         { st with
            groups := updateFirst st.groups gid
              { g with messages := g.messages ++ [⟨caller, text, now⟩] } },
         [⟨toString gid, "newMessage", ⟨caller, text, now⟩⟩]) := by
  have hid : g.id = gid := by
    have h2 := List.find?_some hg
    simpa using h2
  simp [sendMessage, hg, hid]

/-- Witness for `append_message_any_caller`: the caller is not a member
of the group, and the append still succeeds and broadcasts. -/
theorem append_message_any_caller_witness :
    sendMessage ⟨[], [⟨5, some "trip", ["m@x.com"], []⟩], 0, 6⟩ 5
        "outsider@x.com" (some "hi") 42
      = (SendResult.ok ⟨"outsider@x.com", some "hi", 42⟩,
         ⟨[], [⟨5, some "trip", ["m@x.com"],
               [⟨"outsider@x.com", some "hi", 42⟩]⟩], 0, 6⟩,
         [⟨"5", "newMessage", ⟨"outsider@x.com", some "hi", 42⟩⟩]) := by
  have h := append_message_any_caller
    ⟨[], [⟨5, some "trip", ["m@x.com"], []⟩], 0, 6⟩ 5 "outsider@x.com"
    (some "hi") 42 ⟨5, some "trip", ["m@x.com"], []⟩ (by decide)
  rw [h]
  rfl

/-- C7: posting a message to a group id that does not exist returns 404,
writes nothing to the store, and broadcasts nothing. -/
theorem append_message_group_not_found (st : ServerState) (gid : Nat)
    (caller : String) (text : Option String) (now : Nat)
    (hg : st.groups.find? (fun h => h.id = gid) = none) :
    sendMessage st gid caller text now = (SendResult.notFound404, st, []) := by
  simp [sendMessage, hg]

/-- Witness for `append_message_group_not_found` on a store with one
group of a different id. -/
theorem append_message_group_not_found_witness :
    sendMessage ⟨[], [⟨5, some "trip", ["m@x.com"], []⟩], 0, 6⟩ 9
        "m@x.com" (some "hi") 42
      = (SendResult.notFound404,
         ⟨[], [⟨5, some "trip", ["m@x.com"], []⟩], 0, 6⟩, []) :=
  append_message_group_not_found
    ⟨[], [⟨5, some "trip", ["m@x.com"], []⟩], 0, 6⟩ 9 "m@x.com"
    (some "hi") 42 (by decide)

/-- C8: registration persists only the bcrypt digest of the password —
every user record present after a registration was either already stored
or carries `bcryptHash p salt` in its password field — and the
authenticated-user endpoint returns no password information: its
response is unchanged under rewriting every stored digest. -/
theorem password_hashed_and_never_returned :
    (∀ st n e p salt r st',
      register st (some n) (some e) (some p) salt = (r, st') →
      ∀ u : User, u ∈ st'.users →
        u ∈ st.users ∨ u.password = bcryptHash p salt) ∧
    (∀ st f uid, getAuthUser (mapPasswords st f) uid = getAuthUser st uid) := by
  constructor
  · intro st n e p salt r st' hreg u hu
    cases hf : st.users.find? (fun u => u.email = toLowerCase e) with
    | some w =>
      simp [register, hf] at hreg
      rw [← hreg.2] at hu
      exact Or.inl hu
    | none =>
      simp [register, hf] at hreg
      rw [← hreg.2] at hu
      simp at hu
      rcases hu with hu | hu
      · exact Or.inl hu
      · exact Or.inr (by rw [hu])
  · intro st f uid
    simp only [getAuthUser, mapPasswords, List.find?_map, Function.comp_def]
    cases hf : st.users.find? (fun u => u.id = uid) <;> simp [hf]

/-- Witness for `password_hashed_and_never_returned`: the one record a
concrete registration stores carries the digest, and the user endpoint's
answer survives rewriting all digests. -/
theorem password_hashed_and_never_returned_witness :
    ((⟨0, "A", "a@x.com", bcryptHash "pw" 7⟩ : User)
        ∈ (⟨[], [], 0, 0⟩ : ServerState).users ∨
      (⟨0, "A", "a@x.com", bcryptHash "pw" 7⟩ : User).password
        = bcryptHash "pw" 7) ∧
    getAuthUser
        (mapPasswords ⟨[⟨0, "A", "a@x.com", bcryptHash "pw" 7⟩], [], 1, 0⟩
          (fun _ => bcryptHash "X" 0)) 0
      = getAuthUser ⟨[⟨0, "A", "a@x.com", bcryptHash "pw" 7⟩], [], 1, 0⟩ 0 :=
  ⟨password_hashed_and_never_returned.1 ⟨[], [], 0, 0⟩ "A" "a@x.com" "pw" 7
      RegisterResult.created201
      ⟨[⟨0, "A", "a@x.com", bcryptHash "pw" 7⟩], [], 1, 0⟩ (by decide)
      ⟨0, "A", "a@x.com", bcryptHash "pw" 7⟩ (by decide),
   password_hashed_and_never_returned.2
      ⟨[⟨0, "A", "a@x.com", bcryptHash "pw" 7⟩], [], 1, 0⟩
      (fun _ => bcryptHash "X" 0) 0⟩

/-- C9 counterexample: registering with the email field missing is
answered 500 (the handler's catch-all), not a 400 validation failure as
the claim's taxonomy requires. -/
theorem missing_field_yields_500_not_400 :
    (register ⟨[], [], 0, 0⟩ (some "A") none (some "pw") 7).1
        = RegisterResult.serverError500 ∧
    (register ⟨[], [], 0, 0⟩ (some "A") none (some "pw") 7).1
        ≠ RegisterResult.duplicate400 := by
  constructor <;> decide

/-- C9 (amended): a missing required body field is never answered 400:
register with a missing email, password or name is answered 500; login
with a missing email gets no response at all (the exception escapes the
try block); login with a missing password for an existing user is
answered 500.  Only the duplicate-email case maps to 400. -/
theorem missing_fields_error_mapping (st : ServerState) (n e1 e2 p : String)
    (salt : Nat) (secret : String) (now : Nat) :
    (register st (some n) none (some p) salt).1
      = RegisterResult.serverError500 ∧
    (st.users.find? (fun u => u.email = toLowerCase e1) = none →
      (register st (some n) (some e1) none salt).1
          = RegisterResult.serverError500 ∧
      (register st none (some e1) (some p) salt).1
          = RegisterResult.serverError500) ∧
    login st none (some p) secret now = LoginResult.noResponse ∧
    (∀ u, st.users.find? (fun x => x.email = toLowerCase e2) = some u →
      login st (some e2) none secret now = LoginResult.serverError500) := by
  refine ⟨rfl, fun hfresh => ⟨?_, ?_⟩, rfl, fun u hu => ?_⟩
  · simp [register, hfresh]
  · simp [register, hfresh]
  · simp [login, hu]

/-- Witness for `missing_fields_error_mapping` on a store holding one
user: a fresh email for the register cases, the stored email for the
login case. -/
theorem missing_fields_error_mapping_witness :
    (register ⟨[⟨0, "A", "a@x.com", bcryptHash "pw" 7⟩], [], 1, 0⟩
        (some "B") (some "b@x.com") none 7).1
      = RegisterResult.serverError500 ∧
    login ⟨[⟨0, "A", "a@x.com", bcryptHash "pw" 7⟩], [], 1, 0⟩
        (some "a@x.com") none "s" 100
      = LoginResult.serverError500 := by
  have h := missing_fields_error_mapping
    ⟨[⟨0, "A", "a@x.com", bcryptHash "pw" 7⟩], [], 1, 0⟩ "B" "b@x.com"
    "a@x.com" "pw" 7 "s" 100
  exact ⟨(h.2.1 (by decide)).1,
         h.2.2.2 ⟨0, "A", "a@x.com", bcryptHash "pw" 7⟩ (by decide)⟩

/-- C10: creating a group stores and returns (status 201) a group whose
members are exactly the creator's email and whose message log is
empty. -/
theorem create_group_sole_member (st : ServerState) (name : Option String)
    (email : String) :
    ∃ g : Vihara.Group,
      (createGroup st name email).1 = CreateGroupResult.created201 g ∧
      g.members = [email] ∧ g.messages = [] ∧
      (createGroup st name email).2.groups = st.groups ++ [g] :=
  ⟨⟨st.nextGroupId, name, [email], []⟩, rfl, rfl, rfl, rfl⟩

end Vihara
